import Mathlib

/-!
Verification development for the `Sample` module of HistFitter
(`src/python/sample.py`): a shallow embedding of the systematic-uncertainty
reconciliation logic (`addOverallSys`, `addHistoSys`, `addShapeSys`,
`checkNormalizationEffect`, `symmetrizeSystematicEnvelope`) and of the
bookkeeping helpers (`getHistogramName`, `getTreename`), together with
theorems settling the specification claims about them.

Modelling conventions:
* ROOT histograms (`TH1`) are modelled by `Hist`: a bin count `nbins` and
  total functions `content`/`sumw2` on bin indices.  Meaningful bins are
  `0 .. nbins+1` (0 = underflow, `nbins+1` = overflow); `Integral()` sums
  bins `1 .. nbins`, as ROOT does without options.  Since
  `TH1.SetDefaultSumw2(True)` is set at module load, a bin error is
  `sqrt(sumw2)`; "the bin error is zero" is encoded as `sumw2 = 0`,
  keeping everything inside `ℚ`.
* The process-wide histogram store `configMgr.hists` is a total function
  `String → Hist`; claims only involve names that are present in the
  store, so the `KeyError`/`None` paths for absent names are not modelled.
* Python float arithmetic is modelled by exact rationals.  Python raises
  `ZeroDivisionError` on float division by `0.0`; every such site is
  translated as an explicit test of the divisor against `0`.
* Runtime exceptions (`NameError`, `IndexError`, `ValueError`,
  `RuntimeError`, `log.fatal`) are modelled by `Except PyErr`.
-/

inductive PyErr where
  | nameError
  | indexError
  | valueError
  | runtimeError
  | fatalError
deriving DecidableEq, Repr

/-- A ROOT `TH1` histogram: `nbins` real bins, per-bin content and
per-bin `sumw2` (squared error).  Bins `0 .. nbins+1` are meaningful. -/
structure Hist where
  nbins : ℕ
  content : ℕ → ℚ
  sumw2 : ℕ → ℚ

/-- `TH1.Integral()`: sum of the contents of bins `1 .. nbins`
(underflow and overflow excluded). -/
def Hist.Integral (h : Hist) : ℚ :=
  ((List.range h.nbins).map (fun i => h.content (i + 1))).sum

/-- `TH1.Scale(c)`: contents scale by `c`; with `Sumw2` active the stored
squared errors scale by `c^2`. -/
def Hist.scale (h : Hist) (c : ℚ) : Hist :=
  { h with content := fun i => c * h.content i
           sumw2 := fun i => c ^ 2 * h.sumw2 i }

/-- `SetBinContent(i, v)`. -/
def Hist.setBinContent (h : Hist) (i : ℕ) (v : ℚ) : Hist :=
  { h with content := Function.update h.content i v }

/-- The histogram store `configMgr.hists`, keyed by histogram name. -/
abbrev Store := String → Hist

/-- Shallow embedding of `checkNormalizationEffect(hNom, hUp, hDown,
norm_threshold=0.005)` (sample.py lines 66-81).

The source computes `max_variation = max(|up/nom - 1|, |down/nom - 1|)`
and, when `max_variation < norm_threshold`, executes
`log.verbose("... threshold = {:.3f}".format(..., threshold))` before
`return False`.  The name `threshold` is not defined anywhere in the
module (the parameter is `norm_threshold`), and the `.format(...)`
argument list is evaluated eagerly, so this branch raises `NameError`
instead of returning `False`.  The embedding returns
`Except.error PyErr.nameError` on exactly that branch. -/
def checkNormalizationEffect (hNom hUp hDown : Hist) (norm_threshold : ℚ) :
    Except PyErr Bool :=
  let nom_integral := hNom.Integral
  if nom_integral = 0 then
    Except.ok true
  else
    let up_norm := hUp.Integral / nom_integral
    let down_norm := hDown.Integral / nom_integral
    let max_variation := max |up_norm - 1| |down_norm - 1|
    if max_variation < norm_threshold then
      Except.error PyErr.nameError
    else
      Except.ok true

/-- Shallow embedding of `symmetrizeSystematicEnvelope(nomName, lowName,
highName)` (sample.py lines 108-131).

The source loops over bins `1 .. GetNbinsX()` of the low histogram; each
iteration reads bin `iBin` of the nominal, low and high histograms and
writes bin `iBin` of the high and low histograms, so the loop is a
per-bin map and is embedded pointwise.  For each bin,
`err = max(|nom - low|, |high - nom|)`; the high histogram receives
`nom + err` and the low histogram receives `nom - err`.  When
`nom - err < 0` the source only emits a warning claiming the bin is set
to `0.0`; no assignment follows the warning, so the negative value is
stored unchanged, and the embedding does the same. -/
def symmetrizeSystematicEnvelope (store : Store) (nomName lowName highName : String) :
    Store :=
  let nom := store nomName
  let lo := store lowName
  let hi := store highName
  let err : ℕ → ℚ := fun i =>
    max |nom.content i - lo.content i| |hi.content i - nom.content i|
  let hi' : Hist :=
    { hi with content := fun i =>
        if 1 ≤ i ∧ i ≤ lo.nbins then nom.content i + err i else hi.content i }
  let lo' : Hist :=
    { lo with content := fun i =>
        if 1 ≤ i ∧ i ≤ lo.nbins then nom.content i - err i else lo.content i }
  Function.update (Function.update store highName hi') lowName lo'

/-- One entry of `histoSystList`: the appended tuples are
`(systName, highName, lowName, configMgr.histCacheFile, "", "", "", "")`;
the four trailing empty strings are fixed placeholders and are omitted. -/
structure HistoSysEntry where
  systName : String
  highName : String
  lowName : String
  cacheFile : String
deriving DecidableEq, Repr

/-- One entry of `overallSystList`: `(systName, high, low)`. -/
structure OverallSysEntry where
  systName : String
  high : ℚ
  low : ℚ
deriving DecidableEq, Repr

/-- The fields of a `Sample` instance relevant to the claims
(sample.py `__init__`, lines 138-219).  `normRegions = []` plays the
role of Python's `None`/empty list (both are falsy at every use site);
`currentSystematic` holds a tree-name suffix or `None`. -/
structure SampleState where
  name : String
  isData : Bool
  isQCD : Bool
  isDiscovery : Bool
  histoSystList : List HistoSysEntry
  shapeSystList : List (String × String × String)
  overallSystList : List OverallSysEntry
  shapeFactorList : List String
  systList : List String
  normRegions : List (String × String)
  noRenormSys : Bool
  normSampleRemap : String
  overrideTreename : String
  prefixTreeName : String
  suffixTreeName : String
  currentSystematic : Option String
deriving DecidableEq, Repr

/-- The parts of `configMgr` (and of the fit-configuration collaborator)
that the embedded operations read.  `systDictKeys` models
`configMgr.systDict.keys()`; `defaultNormChannels` models the
`(regionString, variableName)` pairs of the parent fit configuration's
non-validation channels, which `addHistoSys` uses as a default when
`normalizeSys` is requested without `normRegions` (a collaborator
lookup outside this module). -/
structure Config where
  systDictKeys : List String
  histCacheFile : String
  nomName : String
  defaultNormChannels : List (String × String)

/-- A fresh `Sample(name)`: all systematic lists empty, all flags at
their constructor defaults (sample.py lines 138-219). -/
def initSample (name : String) : SampleState :=
  { name := name
    isData := false
    isQCD := false
    isDiscovery := false
    histoSystList := []
    shapeSystList := []
    overallSystList := []
    shapeFactorList := []
    systList := []
    normRegions := []
    noRenormSys := true
    normSampleRemap := ""
    overrideTreename := ""
    prefixTreeName := ""
    suffixTreeName := ""
    currentSystematic := none }

/-- The trailing registration step shared by `addHistoSys`,
`addShapeSys`, `addShapeStat` and `addOverallSys`:
`if not systName in configMgr.systDict.keys(): self.systList.append(systName)`.
Note that membership is tested only against the global registry, never
against `systList` itself. -/
def registerSyst (cfg : Config) (s : SampleState) (systName : String) : SampleState :=
  if systName ∈ cfg.systDictKeys then s
  else { s with systList := s.systList ++ [systName] }

/-- The tolerance `1E-5` of the final checks in `addOverallSys`. -/
def overallTol : ℚ := 1 / 100000

/-- The value-reconciliation steps of `addOverallSys` (sample.py lines
1116-1136), factored out: `low := 2.0 - high` when `high == low`;
mirroring of a side pinned at `1.0`; clamping of each side below `0.01`
up to `0.01` (low first, then high).  Returns the final
`(high, low)` pair. -/
def reconcileOverall (high low : ℚ) : ℚ × ℚ :=
  let low1 : ℚ := if high = low then 2 - high else low
  let high1 : ℚ := if high = 1 ∧ 0 < low1 ∧ low1 ≠ 1 then 2 - low1 else high
  let low2 : ℚ := if low1 = 1 ∧ 0 < high1 ∧ high1 ≠ 1 then 2 - high1 else low1
  let low3 : ℚ := if low2 < 1 / 100 then 1 / 100 else low2
  let high2 : ℚ := if high1 < 1 / 100 then 1 / 100 else high1
  (high2, low3)

/-- Shallow embedding of `addOverallSys(systName, high, low)`
(sample.py lines 1099-1153): exact no-ops for `(1.0, 1.0)` and
`(0.0, 0.0)`; then the value reconciliation of `reconcileOverall`; the
final re-checks with tolerance `1E-5`; then append and registration. -/
def addOverallSys (cfg : Config) (s : SampleState) (systName : String)
    (high low : ℚ) : SampleState :=
  if high = 1 ∧ low = 1 then s
  else if high = 0 ∧ low = 0 then s
  else
    let p := reconcileOverall high low
    if |p.1 - 1| < overallTol ∧ |p.2 - 1| < overallTol then s
    else if |p.1| < overallTol ∧ |p.2| < overallTol then s
    else
      registerSyst cfg
        { s with overallSystList :=
            s.overallSystList ++ [⟨systName, p.1, p.2⟩] } systName

/-- The combined mutable state mutated by the engine calls: the
process-wide histogram store plus the `Sample`'s own fields. -/
structure EngineState where
  hists : Store
  sample : SampleState

/-- The one-sided symmetrization block used by `addHistoSys`
(sample.py lines 714-721, 856-863, 968-975):
`low := Clone(nominal); low.Scale(2.0); low.Add(high, -1.0)`, then a
loop over bins `1 .. GetNbinsX()` flooring negative contents to `0.0`.
The loop writes each bin from its own value only, so it is embedded
pointwise.  With `Sumw2` active, `Scale(2.0)` multiplies `sumw2` by 4
and `Add(high, -1.0)` adds `high`'s `sumw2`. -/
def oneSideLow (nom hi : Hist) : Hist :=
  let base : Hist :=
    { nom with content := fun i => 2 * nom.content i - hi.content i
               sumw2 := fun i => 4 * nom.sumw2 i + hi.sumw2 i }
  { base with content := fun i =>
      if 1 ≤ i ∧ i ≤ base.nbins ∧ base.content i < 0 then 0 else base.content i }

/-- The negative-bin clamp loop of `addHistoSys` Case 3
(sample.py lines 958-961): bins `1 .. GetNbinsX()` with negative
content are set to `0.0` (per-bin independent, embedded pointwise). -/
def clampNegBins (h : Hist) : Hist :=
  { h with content := fun i =>
      if 1 ≤ i ∧ i ≤ h.nbins ∧ h.content i < 0 then 0 else h.content i }

/-- The per-bin relative-deviation loops of `addShapeSys`
(sample.py lines 1038-1052): for bins `0 .. GetNbinsX()` of `src`
(the loop is `xrange(GetNbinsX()+1)`, so the overflow bin is left
untouched), the content becomes `|src/nom - 1|` and the error is set to
`0`; Python float division by a zero nominal bin raises
`ZeroDivisionError`, caught to set content and error to `0`. -/
def relDevHist (src nom : Hist) : Hist :=
  { src with
      content := fun i =>
        if i ≤ src.nbins then
          if nom.content i = 0 then 0 else |src.content i / nom.content i - 1|
        else src.content i
      sumw2 := fun i => if i ≤ src.nbins then 0 else src.sumw2 i }

/-- The per-bin maximum loop of `addShapeSys`
(sample.py lines 1054-1062): for bins `0 .. GetNbinsX()` of `base`,
the content becomes `max(hi, lo)` of the relative-deviation histograms
and the error is set to `0` (the `ZeroDivisionError` handler there is
unreachable: the branch performs no division). -/
def maxDevHist (base hi lo : Hist) : Hist :=
  { base with
      content := fun i =>
        if i ≤ base.nbins then max (hi.content i) (lo.content i)
        else base.content i
      sumw2 := fun i => if i ≤ base.nbins then 0 else base.sumw2 i }

/-- Shallow embedding of `addShapeSys(systName, nomName, highName,
lowName, constraintType="Gaussian")` (sample.py lines 1018-1067).

The source clones the three histograms to `*Norm` names, rewrites the
high and low clones to per-bin `|x/nom - 1|` deviations, rewrites the
nominal clone to the per-bin maximum of the two, zeroes all touched bin
errors, and registers `systName` in `systList` when it is not globally
registered.  Note that the source never appends anything to
`shapeSystList` and never uses `constraintType`: the function mutates
the store and `systList` only. -/
def addShapeSys (cfg : Config) (st : EngineState)
    (systName nomName highName lowName constraintType : String) : EngineState :=
  let h1 := Function.update st.hists (highName ++ "Norm") (st.hists highName)
  let h2 := Function.update h1 (lowName ++ "Norm") (h1 lowName)
  let h3 := Function.update h2 (nomName ++ "Norm") (h2 nomName)
  let h4 := Function.update h3 (highName ++ "Norm")
      (relDevHist (h3 (highName ++ "Norm")) (h3 nomName))
  let h5 := Function.update h4 (lowName ++ "Norm")
      (relDevHist (h4 (lowName ++ "Norm")) (h4 nomName))
  let h6 := Function.update h5 (nomName ++ "Norm")
      (maxDevHist (h5 (nomName ++ "Norm")) (h5 (highName ++ "Norm"))
        (h5 (lowName ++ "Norm")))
  { hists := h6, sample := registerSyst cfg st.sample systName }

/-- Case 1 of `addHistoSys` (`normalizeSys` true; sample.py lines
701-842), for calls with `nomSysName=""` (as in every claim: the
`len(nomSysName) > 0` blocks at lines 656-678 and 743-745 are skipped).
Early `return` statements skip the trailing `systList` registration at
line 1013; paths that fall through perform it. -/
def histoSysCase1 (cfg : Config) (hists : Store) (sample : SampleState)
    (systName nomName highName lowName : String)
    (includeOverallSys symmetrize0 oneSide symmetrizeEnvelope : Bool)
    (samName normString : String) : Except PyErr EngineState :=
  if sample.normRegions.isEmpty then Except.error PyErr.runtimeError
  else
    let hists :=
      if symmetrize0 && symmetrizeEnvelope then
        symmetrizeSystematicEnvelope hists nomName lowName highName
      else if oneSide && symmetrize0 then
        Function.update hists lowName (oneSideLow (hists nomName) (hists highName))
      else hists
    let samNameRemap :=
      if sample.normSampleRemap.length > 0 then sample.normSampleRemap else samName
    let highRemapName := "h" ++ samNameRemap ++ systName ++ "High_" ++ normString ++ "Norm"
    let lowRemapName := "h" ++ samNameRemap ++ systName ++ "Low_" ++ normString ++ "Norm"
    let nomRemapName := "h" ++ samNameRemap ++ "Nom_" ++ normString ++ "Norm"
    let highIntegral := (hists highRemapName).Integral
    let nomIntegral := (hists nomRemapName).Integral
    -- lines 748-758: one-sided integral symmetrization, possibly reverting
    -- `symmetrize` to `False`
    let p : ℚ × Bool :=
      if oneSide && symmetrize0 then
        let li := 2 * nomIntegral - highIntegral
        if li < 0 then
          let li2 := (hists lowRemapName).Integral
          (if li2 = 0 then nomIntegral else li2, false)
        else (li, symmetrize0)
      else ((hists lowRemapName).Integral, symmetrize0)
    let lowIntegral := p.1
    let symmetrize := p.2
    -- lines 761-767: `high = highIntegral/nomIntegral` raises
    -- `ZeroDivisionError` when the nominal integral is zero -> return
    if nomIntegral = 0 then Except.ok ⟨hists, sample⟩
    else
      let high := highIntegral / nomIntegral
      let low := lowIntegral / nomIntegral
      let hists := Function.update hists (highName ++ "Norm") (hists highName)
      let hists := Function.update hists (lowName ++ "Norm") (hists lowName)
      -- lines 775-781: `Scale(1./high)` / `Scale(1./low)`: the reciprocal
      -- raises `ZeroDivisionError` on a zero ratio -> return (clones stay)
      if high = 0 then Except.ok ⟨hists, sample⟩
      else
        let hists := Function.update hists (highName ++ "Norm")
            ((hists (highName ++ "Norm")).scale (1 / high))
        if low = 0 then Except.ok ⟨hists, sample⟩
        else
          let hists := Function.update hists (lowName ++ "Norm")
              ((hists (lowName ++ "Norm")).scale (1 / low))
          -- lines 784-814: the overallNormHistoSys block; on a zero
          -- integral `includeOverallSys` is reverted to `False`; otherwise
          -- the `*Norm` histograms are rescaled once more by the `N` ratios
          -- (those ratios are nonzero here, so the inner
          -- `ZeroDivisionError` handlers are unreachable)
          let q : Store × Bool × ℚ × ℚ :=
            if includeOverallSys && !(oneSide && !symmetrize) then
              let nomIntegralN := (hists nomName).Integral
              let lowIntegralN := (hists (lowName ++ "Norm")).Integral
              let highIntegralN := (hists (highName ++ "Norm")).Integral
              if nomIntegralN = 0 ∨ highIntegralN = 0 ∨ lowIntegralN = 0 then
                (hists, false, 0, 0)
              else
                let highN := highIntegralN / nomIntegralN
                let lowN := lowIntegralN / nomIntegralN
                let hists := Function.update hists (highName ++ "Norm")
                    ((hists (highName ++ "Norm")).scale (1 / highN))
                let hists := Function.update hists (lowName ++ "Norm")
                    ((hists (lowName ++ "Norm")).scale (1 / lowN))
                (hists, true, highN, lowN)
            else (hists, false, 0, 0)
          -- lines 834-842: append the resolved entry, then the overall
          -- systematic when still requested
          let sample :=
            if oneSide && !symmetrize then
              { sample with histoSystList := sample.histoSystList ++
                  [⟨systName, highName ++ "Norm", nomName, cfg.histCacheFile⟩] }
            else
              { sample with histoSystList := sample.histoSystList ++
                  [⟨systName, highName ++ "Norm", lowName ++ "Norm", cfg.histCacheFile⟩] }
          let sample :=
            if q.2.1 then addOverallSys cfg sample systName q.2.2.1 q.2.2.2
            else sample
          Except.ok ⟨q.1, registerSyst cfg sample systName⟩

/-- Case 2 of `addHistoSys` (`includeOverallSys` true, `normalizeSys`
false; sample.py lines 846-919).  The store is total, so the
`AttributeError` path for a `None` histogram does not arise. -/
def histoSysCase2 (cfg : Config) (hists : Store) (sample : SampleState)
    (systName nomName highName lowName : String)
    (symmetrize oneSide symmetrizeEnvelope : Bool) : Except PyErr EngineState :=
  let hists :=
    if symmetrizeEnvelope then
      symmetrizeSystematicEnvelope hists nomName lowName highName
    else if oneSide && symmetrize then
      Function.update hists lowName (oneSideLow (hists nomName) (hists highName))
    else hists
  let nomIntegral := (hists nomName).Integral
  let lowIntegral := (hists lowName).Integral
  let highIntegral := (hists highName).Integral
  if nomIntegral = 0 ∨ lowIntegral = 0 ∨ highIntegral = 0 then
    -- lines 875-877: cannot renormalize; keep the raw entry
    Except.ok ⟨hists, registerSyst cfg
      { sample with histoSystList := sample.histoSystList ++
          [⟨systName, highName, lowName, cfg.histCacheFile⟩] } systName⟩
  else
    -- all three integrals are nonzero, so neither the ratio computation
    -- nor the `Scale(1./ratio)` reciprocals can raise
    let high := highIntegral / nomIntegral
    let low := lowIntegral / nomIntegral
    let hists := Function.update hists (highName ++ "Norm") (hists highName)
    let hists := Function.update hists (lowName ++ "Norm") (hists lowName)
    let hists := Function.update hists (highName ++ "Norm")
        ((hists (highName ++ "Norm")).scale (1 / high))
    let hists := Function.update hists (lowName ++ "Norm")
        ((hists (lowName ++ "Norm")).scale (1 / low))
    let sample :=
      { sample with histoSystList := sample.histoSystList ++
          [⟨systName, highName ++ "Norm", lowName ++ "Norm", cfg.histCacheFile⟩] }
    let sample := addOverallSys cfg sample systName high low
    Except.ok ⟨hists, registerSyst cfg sample systName⟩

/-- Case 3 of `addHistoSys` (`includeOverallSys` and `normalizeSys`
both false; sample.py lines 922-1011).  The default sub-branch calls
`checkNormalizationEffect`, whose pruning branch raises `NameError`
(see `checkNormalizationEffect`); the exception propagates out of
`addHistoSys` uncaught.  The disabled `if not True:` shape-impact block
(lines 997-1009) is dead code and has no effect. -/
def histoSysCase3 (cfg : Config) (hists : Store) (sample : SampleState)
    (systName nomName highName lowName : String)
    (symmetrize oneSide symmetrizeEnvelope : Bool) : Except PyErr EngineState :=
  if symmetrize && !(oneSide || symmetrizeEnvelope) then
    let nomIntegral := (hists nomName).Integral
    let lowIntegral := (hists lowName).Integral
    let highIntegral := (hists highName).Integral
    -- lines 931-936: ratio computation raises on a zero nominal -> return
    if nomIntegral = 0 then Except.ok ⟨hists, sample⟩
    else
      let high := highIntegral / nomIntegral
      let low := lowIntegral / nomIntegral
      if high < 1 ∧ 1 > low ∧ low > 0 then
        let hists := Function.update hists (highName ++ "Norm") (hists highName)
        -- `Scale((2.0-low)/high)` raises `ZeroDivisionError` when the high
        -- ratio is zero -> return (the clone stays in the store)
        if high = 0 then Except.ok ⟨hists, sample⟩
        else
          let hists := Function.update hists (highName ++ "Norm")
              ((hists (highName ++ "Norm")).scale ((2 - low) / high))
          Except.ok ⟨hists, registerSyst cfg
            { sample with histoSystList := sample.histoSystList ++
                [⟨systName, highName ++ "Norm", lowName, cfg.histCacheFile⟩] } systName⟩
      else if low > 1 ∧ high > 1 then
        -- here `low > 1`, so `Scale((2.0-high)/low)` cannot raise
        let hists := Function.update hists (lowName ++ "Norm") (hists lowName)
        let hists := Function.update hists (lowName ++ "Norm")
            ((hists (lowName ++ "Norm")).scale ((2 - high) / low))
        Except.ok ⟨hists, registerSyst cfg
          { sample with histoSystList := sample.histoSystList ++
              [⟨systName, highName, lowName ++ "Norm", cfg.histCacheFile⟩] } systName⟩
      else if low < 0 then
        let hists := Function.update hists (lowName ++ "Norm")
            (clampNegBins (hists lowName))
        Except.ok ⟨hists, registerSyst cfg
          { sample with histoSystList := sample.histoSystList ++
              [⟨systName, highName, lowName ++ "Norm", cfg.histCacheFile⟩] } systName⟩
      else
        Except.ok ⟨hists, registerSyst cfg
          { sample with histoSystList := sample.histoSystList ++
              [⟨systName, highName, lowName, cfg.histCacheFile⟩] } systName⟩
  else if symmetrize && oneSide then
    let hists := Function.update hists lowName (oneSideLow (hists nomName) (hists highName))
    Except.ok ⟨hists, registerSyst cfg
      { sample with histoSystList := sample.histoSystList ++
          [⟨systName, highName, lowName, cfg.histCacheFile⟩] } systName⟩
  else if symmetrize && symmetrizeEnvelope then
    let hists := symmetrizeSystematicEnvelope hists nomName lowName highName
    Except.ok ⟨hists, registerSyst cfg
      { sample with histoSystList := sample.histoSystList ++
          [⟨systName, highName, lowName, cfg.histCacheFile⟩] } systName⟩
  else
    -- default branch, lines 984-1011: the integrals computed at lines
    -- 987-989 feed only log messages; `checkNormalizationEffect` is called
    -- with its default threshold 0.005 and its `NameError` propagates
    match checkNormalizationEffect (hists nomName) (hists highName)
        (hists lowName) (1 / 200) with
    | Except.error e => Except.error e
    | Except.ok _ =>
        Except.ok ⟨hists, registerSyst cfg
          { sample with histoSystList := sample.histoSystList ++
              [⟨systName, highName, lowName, cfg.histCacheFile⟩] } systName⟩

/-- Shallow embedding of `addHistoSys(systName, nomName, highName,
lowName, includeOverallSys, normalizeSys, symmetrize, oneSide, samName,
normString, nomSysName, symmetrizeEnvelope)` (sample.py lines 627-1015)
for calls with `nomSysName=""` (every claim; the tree-alignment rescale
block guarded by `len(nomSysName) > 0` is skipped in that case).

`oneSide` together with `symmetrizeEnvelope` is the fatal configuration
error (`log.fatal`, modelled as `PyErr.fatalError`).  When the sample
has `noRenormSys` set, `normalizeSys` is downgraded to `False`; when
`normalizeSys` survives but no `normRegions` are configured, the
default region list is taken from the parent fit configuration
(`cfg.defaultNormChannels`) via `setNormRegions`, which also clears
`noRenormSys`.  The three resolution cases are mutually exclusive. -/
def addHistoSys (cfg : Config) (st : EngineState)
    (systName nomName highName lowName : String)
    (includeOverallSys normalizeSys symmetrize oneSide : Bool)
    (samName normString : String) (symmetrizeEnvelope : Bool) :
    Except PyErr EngineState :=
  if oneSide && symmetrizeEnvelope then Except.error PyErr.fatalError
  else
    let normalizeSys1 := if st.sample.noRenormSys && normalizeSys then false
                         else normalizeSys
    let sample :=
      if normalizeSys1 && st.sample.normRegions.isEmpty then
        { st.sample with normRegions := cfg.defaultNormChannels, noRenormSys := false }
      else st.sample
    if normalizeSys1 then
      histoSysCase1 cfg st.hists sample systName nomName highName lowName
        includeOverallSys symmetrize oneSide symmetrizeEnvelope samName normString
    else if includeOverallSys then
      histoSysCase2 cfg st.hists sample systName nomName highName lowName
        symmetrize oneSide symmetrizeEnvelope
    else
      histoSysCase3 cfg st.hists sample systName nomName highName lowName
        symmetrize oneSide symmetrizeEnvelope

/-- Shallow embedding of `getHistogramName(fitConfig, syst_name="",
variation="")` (sample.py lines 496-530).

`channelBlinded` stands for the collaborator call
`self.parentChannel.isBlinded(fitConfig)` (consulted only for data
samples, via `isBlinded`); `regions` and `variableName` come from the
parent channel and `replaceSymbols` is the collaborator helper from
`configManager`.  The blinded format string has three placeholders but
four arguments, so `replaceSymbols(variableName)` is ignored there.
On an unknown variation the source executes
`raise ValueError("Sample {}: ... variation {}".format(variation))`:
the format string has two placeholders but receives one argument, so
building the message raises `IndexError` and the `ValueError` is never
constructed. -/
def getHistogramName (s : SampleState) (channelBlinded : Bool)
    (fitConfigName : String) (regions : List String) (variableName : String)
    (replaceSymbols : String → String)
    (syst_name variation : String) : Except PyErr String :=
  if s.isData ∧ variation ≠ "" then Except.error PyErr.valueError
  else if s.isData ∧ channelBlinded then
    Except.ok ("h" ++ fitConfigName ++ s.name ++ "Blind_" ++
      String.join regions ++ "_obs")
  else if s.isData then
    Except.ok ("h" ++ s.name ++ "_" ++ String.join regions ++ "_obs_" ++
      replaceSymbols variableName)
  else
    let v1 := if variation = "" then "Nom" else variation
    let v2 := if v1 = "Up" then "High" else v1
    let v3 := if v2 = "Down" then "Low" else v2
    if v3 = "Nom" ∨ v3 = "High" ∨ v3 = "Low" then
      Except.ok ("h" ++ s.name ++ syst_name ++ v3 ++ "_" ++
        String.join regions ++ "_obs_" ++ replaceSymbols variableName)
    else Except.error PyErr.indexError

/-- Shallow embedding of `getTreenameSuffix()` (sample.py lines
581-595); `nomNameCfg` is `configMgr.nomName`. -/
def getTreenameSuffix (s : SampleState) (nomNameCfg : String) : String :=
  if s.suffixTreeName ≠ "" then s.suffixTreeName
  else if ¬s.isData ∧ ¬s.isQCD ∧ ¬s.isDiscovery then
    match s.currentSystematic with
    | some suffix => suffix
    | none => nomNameCfg
  else ""

/-- Shallow embedding of `getTreename(suffix="")` called with its
default argument, as the `treename` property does (sample.py lines
597-625).  With an empty `suffix` the `_suffix = copy(suffix)` line
(which would raise `NameError`: `copy` is not imported) is not reached
and `_suffix` comes from `getTreenameSuffix()`.  The call mutates the
sample: an empty `prefixTreeName` is permanently replaced by the
sample name before the tree name is assembled. -/
def getTreename (s : SampleState) (nomNameCfg : String) : String × SampleState :=
  if s.overrideTreename ≠ "" then (s.overrideTreename, s)
  else
    let s1 := if s.prefixTreeName = "" then { s with prefixTreeName := s.name } else s
    (s1.prefixTreeName ++ getTreenameSuffix s1 nomNameCfg, s1)

/-!  Concrete fixtures used by counterexamples and witnesses. -/

/-- A one-bin histogram with content `v` in bin 1 and zero errors. -/
def binHist (v : ℚ) : Hist :=
  { nbins := 1, content := fun i => if i = 1 then v else 0, sumw2 := fun _ => 0 }

/-- A minimal `configMgr` with an empty global systematic registry. -/
def cfg0 : Config :=
  { systDictKeys := [], histCacheFile := "data/cache.root", nomName := "Nom",
    defaultNormChannels := [] }

/-- The clamp applied by `addOverallSys` to each side separately
(sample.py lines 1130-1136): a value below `0.01` is raised to `0.01`. -/
def floor01 (x : ℚ) : ℚ := if x < 1 / 100 then 1 / 100 else x

/-- Store for the Case-3 plain-symmetrize witness: nominal integral 20,
high integral 18 (ratio 0.9), low integral 17 (ratio 0.85). -/
def c8Store : Store := fun name =>
  if name = "hTopHigh" then binHist 18
  else if name = "hTopLow" then binHist 17
  else binHist 20

/-- Engine state for the Case-3 plain-symmetrize witness. -/
def c8State : EngineState := { hists := c8Store, sample := initSample "Top" }

/-- Store for the envelope-symmetrization counterexample: nominal bin 1
holds `1`, the low variation holds `3`, the high variation holds `1`. -/
def envStore : Store := fun name =>
  if name = "hLowE" then binHist 3 else binHist 1

/-- C1: `checkNormalizationEffect` on the spec's own Scenario A input
(nominal integral 100, up 100.4, down 99.7, threshold 0.005, so the
maximal variation 0.004 is below threshold) does not return `False`:
the pruning branch raises `NameError` because its log line references
the undefined name `threshold` (sample.py line 78).  The other branches
behave as claimed: with up 100.6 / down 99.3 (maximal variation 0.006)
it returns `True` without raising, and with a zero nominal integral it
returns `True`. -/
theorem checkNormalizationEffect_prune_raises :
    checkNormalizationEffect (binHist 100) (binHist (502/5)) (binHist (997/10)) (1/200)
      = Except.error PyErr.nameError ∧
    checkNormalizationEffect (binHist 100) (binHist (503/5)) (binHist (993/10)) (1/200)
      = Except.ok true ∧
    checkNormalizationEffect (binHist 0) (binHist 5) (binHist 7) (1/200)
      = Except.ok true := by
  have e1 : |(1:ℚ)/250| = 1/250 := abs_of_nonneg (by norm_num)
  have e2 : |(3:ℚ)/1000| = 3/1000 := abs_of_nonneg (by norm_num)
  have e3 : |(3:ℚ)/500| = 3/500 := abs_of_nonneg (by norm_num)
  have e4 : |(-7:ℚ)/1000| = 7/1000 := by
    rw [show (-7:ℚ)/1000 = -(7/1000) by norm_num, abs_neg]
    exact abs_of_nonneg (by norm_num)
  refine ⟨?_, ?_, ?_⟩ <;>
    · unfold checkNormalizationEffect
      norm_num [Hist.Integral, binHist, List.range_succ, e1, e2, e3, e4]

/-- C2: `symmetrizeSystematicEnvelope` with nominal bin `1`, low bin
`3`, high bin `1` (error envelope `2`) stores low bin `1 - 2 = -1`: the
negative value is kept, not floored to `0`, because the source only
warns (sample.py lines 120-123) and never assigns the clamped value;
the high bin correctly becomes `1 + 2 = 3`. -/
theorem symmetrizeEnvelope_negative_bin_kept :
    ((symmetrizeSystematicEnvelope envStore "hNomE" "hLowE" "hHighE") "hLowE").content 1
        = -1 ∧
    ((symmetrizeSystematicEnvelope envStore "hNomE" "hLowE" "hHighE") "hHighE").content 1
        = 3 := by
  have e1 : |(1:ℚ) - 3| = 2 := by rw [abs_sub_comm]; rw [abs_of_nonneg] <;> norm_num
  have e2 : |(1:ℚ) - 1| = 0 := by norm_num
  have hn : envStore "hNomE" = binHist 1 := rfl
  have hl : envStore "hLowE" = binHist 3 := rfl
  have hh : envStore "hHighE" = binHist 1 := rfl
  unfold symmetrizeSystematicEnvelope
  rw [Function.update_same, Function.update_noteq (by decide), Function.update_same]
  rw [hn, hl, hh]
  norm_num [binHist, e1, e2]

/-!  Helper lemmas shared by several claim theorems. -/

theorem registerSyst_overallSystList (cfg : Config) (s : SampleState) (n : String) :
    (registerSyst cfg s n).overallSystList = s.overallSystList := by
  unfold registerSyst; split_ifs <;> rfl

theorem registerSyst_histoSystList (cfg : Config) (s : SampleState) (n : String) :
    (registerSyst cfg s n).histoSystList = s.histoSystList := by
  unfold registerSyst; split_ifs <;> rfl

theorem registerSyst_shapeSystList (cfg : Config) (s : SampleState) (n : String) :
    (registerSyst cfg s n).shapeSystList = s.shapeSystList := by
  unfold registerSyst; split_ifs <;> rfl

/-- Structural description of `addOverallSys`: either the call is a
no-op, or it appends exactly one entry passing both final 1E-5 checks
and registers the name. -/
theorem addOverallSys_cases (cfg : Config) (s : SampleState) (n : String) (h l : ℚ) :
    addOverallSys cfg s n h l = s ∨
    ∃ hi lo,
      (¬(|hi - 1| < overallTol ∧ |lo - 1| < overallTol) ∧
       ¬(|hi| < overallTol ∧ |lo| < overallTol)) ∧
      addOverallSys cfg s n h l =
        registerSyst cfg
          { s with overallSystList := s.overallSystList ++ [⟨n, hi, lo⟩] } n := by
  simp only [addOverallSys]
  split_ifs <;>
    first
      | exact Or.inl rfl
      | exact Or.inr ⟨_, _, ⟨by assumption, by assumption⟩, rfl⟩

theorem floor01_ge (x : ℚ) : 1 / 100 ≤ floor01 x := by
  unfold floor01; split_ifs with hc
  · linarith
  · linarith

theorem floor01_of_le (x : ℚ) (h : 1 / 100 ≤ x) : floor01 x = x :=
  if_neg (not_lt.2 h)

theorem floor01_not_near1 (x : ℚ) (h : overallTol ≤ |x - 1|) :
    ¬(|floor01 x - 1| < overallTol) := by
  unfold floor01
  split_ifs with hc
  · have e : |(1:ℚ)/100 - 1| = 99/100 := by
      rw [show (1:ℚ)/100 - 1 = -(99/100) by norm_num, abs_neg]
      exact abs_of_nonneg (by norm_num)
    rw [e]
    unfold overallTol
    norm_num
  · exact not_lt.2 h

theorem floor01_not_small (x : ℚ) : ¬(|floor01 x| < overallTol) := by
  intro hlt
  have h1 := floor01_ge x
  have h2 := le_abs_self (floor01 x)
  unfold overallTol at hlt
  linarith

theorem floor01_mirror_ne (v : ℚ) (h1 : v ≠ 1) : floor01 v ≠ floor01 (2 - v) := by
  unfold floor01
  split_ifs with a b b <;> intro he
  · linarith
  · linarith
  · linarith
  · exact h1 (by linarith)

theorem reconcileOverall_equal (v : ℚ) (h1 : v ≠ 1) :
    reconcileOverall v v = (floor01 v, floor01 (2 - v)) := by
  have c4 : ¬(v = 1 ∧ 0 < (2:ℚ) - v ∧ (2:ℚ) - v ≠ 1) := fun hh => h1 hh.1
  have c5 : ¬((2:ℚ) - v = 1 ∧ 0 < v ∧ v ≠ 1) := fun hh => h1 (by linarith [hh.1])
  simp only [reconcileOverall, eq_self_iff_true, if_true]
  rw [if_neg c4, if_neg c5]
  rfl

theorem reconcileOverall_high_one (w : ℚ) (hw0 : 0 < w) (hw1 : w ≠ 1) :
    reconcileOverall 1 w = (floor01 (2 - w), floor01 w) := by
  have c3 : (1:ℚ) ≠ w := fun hh => hw1 hh.symm
  have c4 : (1:ℚ) = 1 ∧ 0 < w ∧ w ≠ 1 := ⟨rfl, hw0, hw1⟩
  have c5 : ¬(w = 1 ∧ 0 < (2:ℚ) - w ∧ (2:ℚ) - w ≠ 1) := fun hh => hw1 hh.1
  simp only [reconcileOverall, eq_self_iff_true, true_and]
  rw [if_neg c3, if_pos (⟨hw0, hw1⟩ : 0 < w ∧ w ≠ 1), if_neg c5]
  rfl

theorem reconcileOverall_low_one (w : ℚ) (hw0 : 0 < w) (hw1 : w ≠ 1) :
    reconcileOverall w 1 = (floor01 w, floor01 (2 - w)) := by
  simp only [reconcileOverall, ne_eq]
  rw [if_neg hw1]
  simp only [eq_self_iff_true, not_true, and_false, if_false, true_and]
  rw [if_pos (⟨hw0, hw1⟩ : 0 < w ∧ ¬(w = 1))]
  rfl

theorem addOverallSys_skip (cfg : Config) (s : SampleState) (n : String)
    (h l : ℚ) (hc1 : ¬(h = 1 ∧ l = 1)) (hc2 : ¬(h = 0 ∧ l = 0))
    (hi lo : ℚ) (hp : reconcileOverall h l = (hi, lo))
    (h8 : |hi - 1| < overallTol ∧ |lo - 1| < overallTol) :
    addOverallSys cfg s n h l = s := by
  simp only [addOverallSys, hp]
  rw [if_neg hc1, if_neg hc2, if_pos h8]

theorem addOverallSys_append (cfg : Config) (s : SampleState) (n : String)
    (h l : ℚ) (hc1 : ¬(h = 1 ∧ l = 1)) (hc2 : ¬(h = 0 ∧ l = 0))
    (hi lo : ℚ) (hp : reconcileOverall h l = (hi, lo))
    (h8 : ¬(|hi - 1| < overallTol ∧ |lo - 1| < overallTol))
    (h9 : ¬(|hi| < overallTol ∧ |lo| < overallTol)) :
    addOverallSys cfg s n h l =
      registerSyst cfg
        { s with overallSystList := s.overallSystList ++ [⟨n, hi, lo⟩] } n := by
  simp only [addOverallSys, hp]
  rw [if_neg hc1, if_neg hc2, if_neg h8, if_neg h9]

/-- C3: after any call to `addOverallSys`, every entry of
`overallSystList` is either an old entry or passes both final checks:
it is not the case that high and low both deviate from `1.0` by less
than `1E-5`, nor that both deviate from `0.0` by less than `1E-5`.
Moreover `addOverallSys(n, 1.0, 1.0)` and `addOverallSys(n, 0.0, 0.0)`
are exact no-ops (so `systList` is unchanged as well). -/
theorem addOverallSys_no_trivial_entries (cfg : Config) (s : SampleState)
    (n : String) (h l : ℚ) :
    (∀ e ∈ (addOverallSys cfg s n h l).overallSystList,
        e ∈ s.overallSystList ∨
          (¬(|e.high - 1| < overallTol ∧ |e.low - 1| < overallTol) ∧
           ¬(|e.high| < overallTol ∧ |e.low| < overallTol))) ∧
    addOverallSys cfg s n 1 1 = s ∧ addOverallSys cfg s n 0 0 = s := by
  refine ⟨?_, by simp [addOverallSys], by simp [addOverallSys]⟩
  intro e he
  rcases addOverallSys_cases cfg s n h l with hc | ⟨hi, lo, hgood, hc⟩
  · rw [hc] at he
    exact Or.inl he
  · rw [hc, registerSyst_overallSystList] at he
    simp only [List.mem_append, List.mem_singleton] at he
    rcases he with he | he
    · exact Or.inl he
    · subst he
      exact Or.inr hgood

theorem addOverallSys_no_trivial_entries_witness :
    (∀ e ∈ (addOverallSys cfg0 (initSample "bkg") "JES" (6/5) (4/5)).overallSystList,
        e ∈ (initSample "bkg").overallSystList ∨
          (¬(|e.high - 1| < overallTol ∧ |e.low - 1| < overallTol) ∧
           ¬(|e.high| < overallTol ∧ |e.low| < overallTol))) ∧
    addOverallSys cfg0 (initSample "bkg") "JES" 1 1 = initSample "bkg" ∧
    addOverallSys cfg0 (initSample "bkg") "JES" 0 0 = initSample "bkg" :=
  addOverallSys_no_trivial_entries cfg0 (initSample "bkg") "JES" (6/5) (4/5)

/-- C4 (amended): one `addOverallSys` call either changes neither
`systList` nor `overallSystList`, or appends exactly one entry to
`overallSystList` and appends `systName` to `systList` precisely when
the name is not in the global registry `configMgr.systDict` — with no
deduplication against `systList` itself. -/
theorem addOverallSys_systList_registration (cfg : Config) (s : SampleState)
    (n : String) (h l : ℚ) :
    ((addOverallSys cfg s n h l).systList = s.systList ∧
     (addOverallSys cfg s n h l).overallSystList = s.overallSystList) ∨
    ((∃ e, (addOverallSys cfg s n h l).overallSystList = s.overallSystList ++ [e]) ∧
     (addOverallSys cfg s n h l).systList =
       (if n ∈ cfg.systDictKeys then s.systList else s.systList ++ [n])) := by
  rcases addOverallSys_cases cfg s n h l with hc | ⟨hi, lo, _, hc⟩
  · rw [hc]
    exact Or.inl ⟨rfl, rfl⟩
  · rw [hc]
    refine Or.inr ⟨⟨⟨n, hi, lo⟩, by rw [registerSyst_overallSystList]⟩, ?_⟩
    unfold registerSyst
    split_ifs <;> rfl

/-- A fully accepted call with `(1.2, 0.8)` appends the pair unchanged
and registers the name (no value triggers any special rule). -/
theorem addOverallSys_accepts_JES (s : SampleState) :
    addOverallSys cfg0 s "JES" (6/5) (4/5) =
      { s with overallSystList := s.overallSystList ++ [⟨"JES", 6/5, 4/5⟩],
               systList := s.systList ++ ["JES"] } := by
  have hp : reconcileOverall ((6:ℚ)/5) ((4:ℚ)/5) = (6/5, 4/5) := by
    norm_num [reconcileOverall]
  have a1 : |(6:ℚ)/5 - 1| = 1/5 := by
    rw [show (6:ℚ)/5 - 1 = 1/5 by norm_num]
    exact abs_of_nonneg (by norm_num)
  have h8 : ¬(|(6:ℚ)/5 - 1| < overallTol ∧ |(4:ℚ)/5 - 1| < overallTol) := by
    intro hh
    have := hh.1
    rw [a1] at this
    unfold overallTol at this
    norm_num at this
  have h9 : ¬(|(6:ℚ)/5| < overallTol ∧ |(4:ℚ)/5| < overallTol) := by
    intro hh
    have := hh.1
    rw [abs_of_nonneg (by norm_num : (0:ℚ) ≤ 6/5)] at this
    unfold overallTol at this
    norm_num at this
  rw [addOverallSys_append cfg0 s "JES" (6/5) (4/5) (by norm_num) (by norm_num)
        _ _ hp h8 h9]
  unfold registerSyst
  rw [if_neg (by simp [cfg0])]

/-- C4 counterexample: two accepted `addOverallSys("JES", 1.2, 0.8)`
calls on a fresh sample leave `"JES"` twice in `systList`: the
registration at sample.py lines 1151-1152 checks `configMgr.systDict`
but never `systList` itself. -/
theorem addOverallSys_systList_duplicate :
    (addOverallSys cfg0 (addOverallSys cfg0 (initSample "ttbar") "JES" (6/5) (4/5))
        "JES" (6/5) (4/5)).systList = ["JES", "JES"] := by
  rw [addOverallSys_accepts_JES, addOverallSys_accepts_JES]
  simp [initSample]

/-- C5 (amended): for `addOverallSys(n, v, v)` with `v ∉ {0, 1}`, the
low side is first symmetrized to `2.0 - v`; when `|v - 1| < 1E-5` the
final re-check drops the entry entirely (exact no-op), and otherwise
the stored pair is `(v, 2.0 - v)` with each side floored at `0.01`, so
the stored low equals `2.0 - v` only as long as `2.0 - v ≥ 0.01`; the
two stored values are never equal, hence never `(v, v)`. -/
theorem addOverallSys_equal_inputs (cfg : Config) (s : SampleState) (n : String)
    (v : ℚ) (h0 : v ≠ 0) (h1 : v ≠ 1) :
    (|v - 1| < overallTol → addOverallSys cfg s n v v = s) ∧
    (overallTol ≤ |v - 1| →
      (addOverallSys cfg s n v v).overallSystList
          = s.overallSystList ++ [⟨n, floor01 v, floor01 (2 - v)⟩] ∧
      floor01 v ≠ floor01 (2 - v)) := by
  have hc1 : ¬(v = 1 ∧ v = 1) := fun hh => h1 hh.1
  have hc2 : ¬(v = 0 ∧ v = 0) := fun hh => h0 hh.1
  have hp := reconcileOverall_equal v h1
  constructor
  · intro hv
    have hb := abs_lt.1 hv
    unfold overallTol at hb
    have e1 : floor01 v = v := floor01_of_le v (by linarith [hb.1])
    have e2 : floor01 (2 - v) = 2 - v := floor01_of_le _ (by linarith [hb.2])
    have h8 : |floor01 v - 1| < overallTol ∧ |floor01 (2 - v) - 1| < overallTol := by
      rw [e1, e2]
      refine ⟨hv, ?_⟩
      rw [show (2:ℚ) - v - 1 = -(v - 1) by ring, abs_neg]
      exact hv
    exact addOverallSys_skip cfg s n v v hc1 hc2 _ _ hp h8
  · intro hv
    have h8 : ¬(|floor01 v - 1| < overallTol ∧ |floor01 (2 - v) - 1| < overallTol) :=
      fun hh => floor01_not_near1 v hv hh.1
    have h9 : ¬(|floor01 v| < overallTol ∧ |floor01 (2 - v)| < overallTol) :=
      fun hh => floor01_not_small v hh.1
    rw [addOverallSys_append cfg s n v v hc1 hc2 _ _ hp h8 h9,
        registerSyst_overallSystList]
    exact ⟨rfl, floor01_mirror_ne v h1⟩

theorem addOverallSys_equal_inputs_witness :
    ((3:ℚ)/10 ≠ 0 ∧ (3:ℚ)/10 ≠ 1 ∧ overallTol ≤ |(3:ℚ)/10 - 1|) ∧
    ((addOverallSys cfg0 (initSample "sig") "JES" (3/10) (3/10)).overallSystList
        = (initSample "sig").overallSystList ++
            [⟨"JES", floor01 (3/10), floor01 (2 - 3/10)⟩] ∧
     floor01 ((3:ℚ)/10) ≠ floor01 (2 - 3/10)) ∧
    (floor01 ((3:ℚ)/10) = 3/10 ∧ floor01 (2 - (3:ℚ)/10) = 17/10) := by
  have habs : overallTol ≤ |(3:ℚ)/10 - 1| := by
    rw [show (3:ℚ)/10 - 1 = -(7/10) by norm_num, abs_neg,
        abs_of_nonneg (by norm_num : (0:ℚ) ≤ 7/10)]
    unfold overallTol
    norm_num
  exact ⟨⟨by norm_num, by norm_num, habs⟩,
    (addOverallSys_equal_inputs cfg0 (initSample "sig") "JES" (3/10)
      (by norm_num) (by norm_num)).2 habs,
    by constructor <;> norm_num [floor01]⟩

/-- C5 counterexample: `addOverallSys("JES", 1.995, 1.995)` stores the
pair `(1.995, 0.01)`, not low `= 2.0 - 1.995 = 0.005`: the mirrored low
falls below `0.01` and is clamped at sample.py lines 1130-1132 before
being stored. -/
theorem addOverallSys_equal_inputs_clamped :
    (addOverallSys cfg0 (initSample "wjets") "JES" (399/200) (399/200)).overallSystList
        = [⟨"JES", 399/200, 1/100⟩] ∧ ((1:ℚ)/100 ≠ 2 - 399/200) := by
  have hp : reconcileOverall ((399:ℚ)/200) ((399:ℚ)/200) = (399/200, 1/100) := by
    rw [reconcileOverall_equal _ (by norm_num)]
    norm_num [floor01]
  have a1 : |(399:ℚ)/200 - 1| = 199/200 := by
    rw [show (399:ℚ)/200 - 1 = 199/200 by norm_num]
    exact abs_of_nonneg (by norm_num)
  have h8 : ¬(|(399:ℚ)/200 - 1| < overallTol ∧ |(1:ℚ)/100 - 1| < overallTol) := by
    intro hh
    have := hh.1
    rw [a1] at this
    unfold overallTol at this
    norm_num at this
  have h9 : ¬(|(399:ℚ)/200| < overallTol ∧ |(1:ℚ)/100| < overallTol) := by
    intro hh
    have := hh.1
    rw [abs_of_nonneg (by norm_num : (0:ℚ) ≤ 399/200)] at this
    unfold overallTol at this
    norm_num at this
  constructor
  · rw [addOverallSys_append cfg0 (initSample "wjets") "JES" (399/200) (399/200)
          (by norm_num) (by norm_num) _ _ hp h8 h9,
        registerSyst_overallSystList]
    simp [initSample]
  · norm_num

/-- C6 (amended): when exactly one side equals `1.0` and the other side
`w` lies in `(0, ∞) \ {1}` with `|w - 1| ≥ 1E-5`, the `1.0`-valued side
is set to `2.0 - w` and then floored at `0.01` (as is `w` itself)
before the entry is stored; in particular `(1.0, 0.8)` stores
`(1.2, 0.8)`.  (When `|w - 1| < 1E-5` the final re-check instead drops
the entry.) -/
theorem addOverallSys_one_side_unit (cfg : Config) (s : SampleState) (n : String)
    (w : ℚ) (hw0 : 0 < w) (hw1 : w ≠ 1) (htol : overallTol ≤ |w - 1|) :
    (addOverallSys cfg s n 1 w).overallSystList
        = s.overallSystList ++ [⟨n, floor01 (2 - w), floor01 w⟩] ∧
    (addOverallSys cfg s n w 1).overallSystList
        = s.overallSystList ++ [⟨n, floor01 w, floor01 (2 - w)⟩] := by
  constructor
  · have hc1 : ¬((1:ℚ) = 1 ∧ w = 1) := fun hh => hw1 hh.2
    have hc2 : ¬((1:ℚ) = 0 ∧ w = 0) := fun hh => one_ne_zero hh.1
    have h8 : ¬(|floor01 (2 - w) - 1| < overallTol ∧ |floor01 w - 1| < overallTol) :=
      fun hh => floor01_not_near1 w htol hh.2
    have h9 : ¬(|floor01 (2 - w)| < overallTol ∧ |floor01 w| < overallTol) :=
      fun hh => floor01_not_small (2 - w) hh.1
    rw [addOverallSys_append cfg s n 1 w hc1 hc2 _ _
          (reconcileOverall_high_one w hw0 hw1) h8 h9,
        registerSyst_overallSystList]
  · have hc1 : ¬(w = 1 ∧ (1:ℚ) = 1) := fun hh => hw1 hh.1
    have hc2 : ¬(w = 0 ∧ (1:ℚ) = 0) := fun hh => one_ne_zero hh.2
    have h8 : ¬(|floor01 w - 1| < overallTol ∧ |floor01 (2 - w) - 1| < overallTol) :=
      fun hh => floor01_not_near1 w htol hh.1
    have h9 : ¬(|floor01 w| < overallTol ∧ |floor01 (2 - w)| < overallTol) :=
      fun hh => floor01_not_small w hh.1
    rw [addOverallSys_append cfg s n w 1 hc1 hc2 _ _
          (reconcileOverall_low_one w hw0 hw1) h8 h9,
        registerSyst_overallSystList]

theorem addOverallSys_one_side_unit_witness :
    ((0:ℚ) < 4/5 ∧ (4:ℚ)/5 ≠ 1 ∧ overallTol ≤ |(4:ℚ)/5 - 1|) ∧
    (addOverallSys cfg0 (initSample "sig2") "JES" 1 (4/5)).overallSystList
        = (initSample "sig2").overallSystList ++
            [⟨"JES", floor01 (2 - 4/5), floor01 (4/5)⟩] ∧
    (floor01 (2 - (4:ℚ)/5) = 6/5 ∧ floor01 ((4:ℚ)/5) = 4/5) := by
  have habs : overallTol ≤ |(4:ℚ)/5 - 1| := by
    rw [show (4:ℚ)/5 - 1 = -(1/5) by norm_num, abs_neg,
        abs_of_nonneg (by norm_num : (0:ℚ) ≤ 1/5)]
    unfold overallTol
    norm_num
  exact ⟨⟨by norm_num, by norm_num, habs⟩,
    (addOverallSys_one_side_unit cfg0 (initSample "sig2") "JES" (4/5)
      (by norm_num) (by norm_num) habs).1,
    by constructor <;> norm_num [floor01]⟩

/-- C6 counterexample: `addOverallSys("JES", 1.0, 1.995)` stores the
pair `(0.01, 1.995)`: the mirrored high `2.0 - 1.995 = 0.005` is below
`0.01` and is clamped (sample.py lines 1134-1136), so the stored
`1.0`-valued side is not `2.0` minus the other side. -/
theorem addOverallSys_one_side_unit_clamped :
    (addOverallSys cfg0 (initSample "zjets") "JES" 1 (399/200)).overallSystList
        = [⟨"JES", 1/100, 399/200⟩] ∧ ((1:ℚ)/100 ≠ 2 - 399/200) := by
  have hp : reconcileOverall (1:ℚ) ((399:ℚ)/200) = (1/100, 399/200) := by
    rw [reconcileOverall_high_one _ (by norm_num) (by norm_num)]
    norm_num [floor01]
  have a1 : |(1:ℚ)/100 - 1| = 99/100 := by
    rw [show (1:ℚ)/100 - 1 = -(99/100) by norm_num, abs_neg]
    exact abs_of_nonneg (by norm_num)
  have h8 : ¬(|(1:ℚ)/100 - 1| < overallTol ∧ |(399:ℚ)/200 - 1| < overallTol) := by
    intro hh
    have := hh.1
    rw [a1] at this
    unfold overallTol at this
    norm_num at this
  have h9 : ¬(|(1:ℚ)/100| < overallTol ∧ |(399:ℚ)/200| < overallTol) := by
    intro hh
    have := hh.1
    rw [abs_of_nonneg (by norm_num : (0:ℚ) ≤ 1/100)] at this
    unfold overallTol at this
    norm_num at this
  constructor
  · rw [addOverallSys_append cfg0 (initSample "zjets") "JES" 1 (399/200)
          (by norm_num) (by norm_num) _ _ hp h8 h9,
        registerSyst_overallSystList]
    simp [initSample]
  · norm_num

/-- C7: `addShapeSys` never appends to `shapeSystList` — for every
state and every argument list (including the `constraintType`, which
the source never reads), the sample's `shapeSystList` after the call
equals the one before, so the claimed
`(systName, histName, constraintType)` entry is never recorded. -/
theorem addShapeSys_shapeSystList_unchanged (cfg : Config) (st : EngineState)
    (systName nomName highName lowName constraintType : String) :
    (addShapeSys cfg st systName nomName highName lowName
        constraintType).sample.shapeSystList = st.sample.shapeSystList := by
  simp only [addShapeSys]
  rw [registerSyst_shapeSystList]

/-- C8: `addHistoSys` in Case 3 (`normalizeSys` and `includeOverallSys`
false) with plain `symmetrize` (no `oneSide`, no `symmetrizeEnvelope`),
when the high integral ratio is `< 1` (and nonzero, so that the rescale
factor `(2 - low)/high` is defined) and the low integral ratio lies in
`(0, 1)`: a clone of the high histogram rescaled by
`(2 - low_ratio)/high_ratio` is stored under `highName ++ "Norm"` and
used in place of the raw high in the appended `histoSystList` entry,
while the low histogram is referenced unchanged. -/
theorem addHistoSys_plain_symmetrize (cfg : Config) (st : EngineState)
    (systName nomName highName lowName samName normString : String)
    (hnom : (st.hists nomName).Integral ≠ 0)
    (hhi0 : (st.hists highName).Integral / (st.hists nomName).Integral ≠ 0)
    (hhi1 : (st.hists highName).Integral / (st.hists nomName).Integral < 1)
    (hlo0 : 0 < (st.hists lowName).Integral / (st.hists nomName).Integral)
    (hlo1 : (st.hists lowName).Integral / (st.hists nomName).Integral < 1) :
    addHistoSys cfg st systName nomName highName lowName false false true false
        samName normString false
      = Except.ok
          ⟨Function.update st.hists (highName ++ "Norm")
              ((st.hists highName).scale
                ((2 - (st.hists lowName).Integral / (st.hists nomName).Integral)
                  / ((st.hists highName).Integral / (st.hists nomName).Integral))),
            registerSyst cfg
              { st.sample with histoSystList := st.sample.histoSystList ++
                  [⟨systName, highName ++ "Norm", lowName, cfg.histCacheFile⟩] }
              systName⟩ := by
  simp only [addHistoSys, Bool.and_false, Bool.false_and, Bool.and_self,
    Bool.false_or, Bool.or_false, Bool.not_false, Bool.and_true, Bool.true_and,
    if_true, if_false, ite_self, Bool.false_eq_true, Bool.true_eq_false]
  simp only [histoSysCase3, Bool.and_false, Bool.false_and, Bool.or_self,
    Bool.not_false, Bool.and_true, Bool.true_and, if_true, Bool.false_eq_true]
  rw [if_neg hnom, if_pos ⟨hhi1, hlo1, hlo0⟩, if_neg hhi0,
    Function.update_same, Function.update_idem]

theorem addHistoSys_plain_symmetrize_witness :
    ((c8State.hists "hTopNom").Integral ≠ 0 ∧
     (c8State.hists "hTopHigh").Integral / (c8State.hists "hTopNom").Integral ≠ 0 ∧
     (c8State.hists "hTopHigh").Integral / (c8State.hists "hTopNom").Integral < 1 ∧
     0 < (c8State.hists "hTopLow").Integral / (c8State.hists "hTopNom").Integral ∧
     (c8State.hists "hTopLow").Integral / (c8State.hists "hTopNom").Integral < 1) ∧
    addHistoSys cfg0 c8State "JES" "hTopNom" "hTopHigh" "hTopLow" false false true
        false "Top" "SR_" false
      = Except.ok
          ⟨Function.update c8State.hists ("hTopHigh" ++ "Norm")
              ((c8State.hists "hTopHigh").scale
                ((2 - (c8State.hists "hTopLow").Integral / (c8State.hists "hTopNom").Integral)
                  / ((c8State.hists "hTopHigh").Integral / (c8State.hists "hTopNom").Integral))),
            registerSyst cfg0
              { c8State.sample with histoSystList := c8State.sample.histoSystList ++
                  [⟨"JES", "hTopHigh" ++ "Norm", "hTopLow", cfg0.histCacheFile⟩] }
              "JES"⟩ := by
  have eN : (c8State.hists "hTopNom").Integral = 20 := by
    have : c8State.hists "hTopNom" = binHist 20 := rfl
    rw [this]
    norm_num [binHist, Hist.Integral, List.range_succ]
  have eH : (c8State.hists "hTopHigh").Integral = 18 := by
    have : c8State.hists "hTopHigh" = binHist 18 := rfl
    rw [this]
    norm_num [binHist, Hist.Integral, List.range_succ]
  have eL : (c8State.hists "hTopLow").Integral = 17 := by
    have : c8State.hists "hTopLow" = binHist 17 := rfl
    rw [this]
    norm_num [binHist, Hist.Integral, List.range_succ]
  have h1 : (c8State.hists "hTopNom").Integral ≠ 0 := by rw [eN]; norm_num
  have h2 : (c8State.hists "hTopHigh").Integral / (c8State.hists "hTopNom").Integral ≠ 0 := by
    rw [eN, eH]; norm_num
  have h3 : (c8State.hists "hTopHigh").Integral / (c8State.hists "hTopNom").Integral < 1 := by
    rw [eN, eH]; norm_num
  have h4 : 0 < (c8State.hists "hTopLow").Integral / (c8State.hists "hTopNom").Integral := by
    rw [eN, eL]; norm_num
  have h5 : (c8State.hists "hTopLow").Integral / (c8State.hists "hTopNom").Integral < 1 := by
    rw [eN, eL]; norm_num
  exact ⟨⟨h1, h2, h3, h4, h5⟩,
    addHistoSys_plain_symmetrize cfg0 c8State "JES" "hTopNom" "hTopHigh" "hTopLow"
      "Top" "SR_" h1 h2 h3 h4 h5⟩

/-- C9: `getHistogramName` with an unknown variation string raises
`IndexError`, not `ValueError`: the `raise ValueError(...)` at
sample.py line 528 formats a message with two placeholders but passes
only one argument, so `str.format` raises `IndexError` before the
`ValueError` exists.  A data sample with a non-empty variation does
raise `ValueError` (line 505), and a valid input returns a name. -/
theorem getHistogramName_unknown_variation :
    getHistogramName (initSample "ttbar") false "fc" ["SR"] "met" id "JES" "Sideways"
      = Except.error PyErr.indexError ∧
    getHistogramName { initSample "obsData" with isData := true } false "fc" ["SR"]
        "met" id "" "High" = Except.error PyErr.valueError ∧
    getHistogramName (initSample "ttbar") false "fc" ["SR"] "met" id "JES" "Up"
      = Except.ok "httbarJESHigh_SR_obs_met" :=
  ⟨rfl, rfl, rfl⟩

theorem getTreenameSuffix_ignores_name_and_prefix (s : SampleState)
    (nomNameCfg prefixNew nameNew : String) :
    getTreenameSuffix { s with prefixTreeName := prefixNew, name := nameNew } nomNameCfg
      = getTreenameSuffix s nomNameCfg := rfl

/-- C10: reading the tree name (calling `getTreename` with no suffix,
as the `treename` property does) on a sample with empty
`overrideTreename` and empty `prefixTreeName` permanently sets
`prefixTreeName` to the sample name (and changes no other field), the
returned name is that prefix followed by the computed suffix, and once
the prefix is baked in a later change of `name` no longer affects the
returned tree name. -/
theorem getTreename_sets_prefix (s : SampleState) (nomNameCfg newName : String)
    (hov : s.overrideTreename = "") (hpf : s.prefixTreeName = "")
    (hname : s.name ≠ "") :
    (getTreename s nomNameCfg).2 = { s with prefixTreeName := s.name } ∧
    (getTreename s nomNameCfg).1 = s.name ++ getTreenameSuffix s nomNameCfg ∧
    (getTreename { (getTreename s nomNameCfg).2 with name := newName } nomNameCfg).1
      = (getTreename (getTreename s nomNameCfg).2 nomNameCfg).1 := by
  have h2 : (getTreename s nomNameCfg).2 = { s with prefixTreeName := s.name } := by
    simp only [getTreename]
    rw [if_neg (fun hcon => hcon hov), if_pos hpf]
  refine ⟨h2, ?_, ?_⟩
  · simp only [getTreename]
    rw [if_neg (fun hcon => hcon hov), if_pos hpf]
    rfl
  · rw [h2]
    simp only [getTreename]
    rw [if_neg (fun hcon => hcon hov), if_neg hname,
      if_neg (fun hcon => hcon hov), if_neg hname]
    rfl

theorem getTreename_sets_prefix_witness :
    ((initSample "ttbar").overrideTreename = "" ∧
     (initSample "ttbar").prefixTreeName = "" ∧
     (initSample "ttbar").name ≠ "") ∧
    ((getTreename (initSample "ttbar") "Nom").2
        = { initSample "ttbar" with prefixTreeName := (initSample "ttbar").name } ∧
     (getTreename (initSample "ttbar") "Nom").1
        = (initSample "ttbar").name ++ getTreenameSuffix (initSample "ttbar") "Nom" ∧
     (getTreename { (getTreename (initSample "ttbar") "Nom").2 with name := "zjets" }
          "Nom").1
        = (getTreename ((getTreename (initSample "ttbar") "Nom").2) "Nom").1) ∧
    (getTreename (initSample "ttbar") "Nom").1 = "ttbarNom" :=
  ⟨⟨rfl, rfl, by decide⟩,
   getTreename_sets_prefix (initSample "ttbar") "Nom" "zjets" rfl rfl (by decide),
   rfl⟩
